import Mathlib

/-!
Shallow embedding of `src/twitch.py` (repository VisualizingTwitchCommunities).

The HTTP session is modelled as an oracle.  For the streams endpoint every
page request is answered in order by `oracle : Nat → StreamsResponse` (the
n-th GET gets the n-th response); for the chatters endpoint the server is a
map from request URL to either a parsed JSON body or an exception
(`Except PyErr ChattersResponse`), a raised Python exception being an
`Except.error` value.  Each embedded operation returns both its result and
the trace of HTTP requests it issued, so claims about which requests happen
(batch sizes, cursor threading, "no further requests") are statable.

JSON bodies are modelled field-by-field exactly as the Python reads them:
a possibly missing key is an `Option`, and a dictionary lookup of a missing
key raises `PyErr.keyError`.  A stream element's only consulted field is
`user_login`, so the `data` array is modelled as the list of those strings.
-/

namespace Twitch

/-- Python dictionary with the `client-id` and `access-token` keys,
as consumed by `get_top_streamers`. -/
structure Credentials where
  clientId : String
  accessToken : String
deriving DecidableEq

def TWITCH_PAGE_SIZE : Nat := 100

/-- A parsed JSON body from the streams endpoint, reduced to the three
reads the Python performs: `data.get('message')`, the nested lookup
`data['pagination']['cursor']` (`none` models a missing `pagination` or
`cursor` key, i.e. a `KeyError`), and the `user_login` of every element
of `data['data']` (`none` models a missing `data` key). -/
structure StreamsResponse where
  message : Option String
  cursor : Option String
  data : Option (List String)
deriving DecidableEq

/-- One GET against the streams endpoint: the headers built from the
credentials and the `first=`/`after=` query parameters of the URL
`https://api.twitch.tv/helix/streams?first={batch}&after={cursor}`. -/
structure StreamsRequest where
  headers : List (String × String)
  first : Nat
  after : String
deriving DecidableEq

/-- The exceptions the embedded code can raise: `raise Exception(msg)` on
an error response, and a `KeyError` from a dictionary lookup. -/
inductive PyErr where
  | apiError (msg : String)
  | keyError (key : String)
deriving DecidableEq

/-- Python truthiness of `data.get('message')` as used by
`if msg := data.get('message')`: an absent key and the empty string are
falsy, any other string is truthy. -/
def truthy : Option String → Option String
  | none => none
  | some s => if s = "" then none else some s

/-- The `headers` dictionary built at the top of `get_top_streamers`. -/
def headersOf (credentials : Credentials) : List (String × String) :=
  [("Client-ID", credentials.clientId),
   ("Authorization", "Bearer " ++ credentials.accessToken)]

/-- The `while count != 0` loop of `get_top_streamers`.  `idx` counts the
requests already issued (so `oracle idx` is the body of the response to the
request issued in this iteration), `cursor` is the cursor variable, and
`count` the remaining count.  Returns the trace of requests issued together
with either the accumulated `user_login` list or the raised exception. -/
def streamsLoop (oracle : Nat → StreamsResponse) (headers : List (String × String))
    (idx : Nat) (cursor : String) (count : Nat) :
    List StreamsRequest × Except PyErr (List String) :=
  if h : count = 0 then
    ([], .ok [])
  else
    let batch := min count TWITCH_PAGE_SIZE
    let req : StreamsRequest := ⟨headers, batch, cursor⟩
    let resp := oracle idx
    match truthy resp.message with
    | some msg =>
      -- `raise Exception(msg)`: no further requests, partial results lost
      ([req], .error (.apiError msg))
    | none =>
      match resp.cursor with
      | none => ([req], .error (.keyError "cursor"))
      | some c =>
        match resp.data with
        | none => ([req], .error (.keyError "data"))
        | some items =>
          let rest := streamsLoop oracle headers (idx + 1) c (count - batch)
          (req :: rest.1, rest.2.map (fun tail => items ++ tail))
termination_by count
decreasing_by
  simp_wf
  simp only [TWITCH_PAGE_SIZE]
  omega

/-- `get_top_streamers(session, credentials, count)`: result variable starts
empty, cursor starts as the empty string, then the pagination loop runs. -/
def get_top_streamers (oracle : Nat → StreamsResponse) (credentials : Credentials)
    (count : Nat) : List StreamsRequest × Except PyErr (List String) :=
  streamsLoop oracle (headersOf credentials) 0 "" count

/-- The sequence of batch sizes the loop requests for a given starting
count: `min count 100`, then recurse on `count - min count 100`. -/
def batches (count : Nat) : List Nat :=
  if h : count = 0 then []
  else min count TWITCH_PAGE_SIZE :: batches (count - min count TWITCH_PAGE_SIZE)
termination_by count
decreasing_by
  simp_wf
  simp only [TWITCH_PAGE_SIZE]
  omega

/-- A parsed JSON body from the tmi.twitch.tv chatters endpoint.  The only
read is `data['chatters'].values()`, a Python dict of role name to list of
viewer names, iterated in key order; it is modelled as an association list.
`chatters = none` models a body without the `chatters` key (`KeyError`). -/
structure ChattersResponse where
  chatters : Option (List (String × List String))
deriving DecidableEq

/-- The tmi.twitch.tv server as seen by `get_current_viewers`: a map from
request URL to either a parsed JSON body or the exception the `session.get`
/ `r.json()` call raises (network failure, JSON decode error, ...). -/
def ChattersServer : Type := String → Except PyErr ChattersResponse

/-- Python's `channel.lower()`: channel names are ASCII, so lowering is
per-character ASCII case folding over the string's characters. -/
def pyLower (s : String) : String :=
  ⟨s.data.map Char.toLower⟩

/-- `get_current_viewers(session, channel)`: one GET to
`http://tmi.twitch.tv/group/user/{channel.lower()}/chatters`, then the
flattening `[viewer for group in data['chatters'].values() for viewer in group]`.
Returns the request URL together with the result or raised exception. -/
def get_current_viewers (server : ChattersServer) (channel : String) :
    String × Except PyErr (List String) :=
  let url := "http://tmi.twitch.tv/group/user/" ++ pyLower channel ++ "/chatters"
  (url,
    match server url with
    | .error e => .error e
    | .ok data =>
      match data.chatters with
      | none => .error (.keyError "chatters")
      | some groups => .ok ((groups.map Prod.snd).flatten))

/-- `data[streamer] = ...` on the Python dict modelled as an association
list in insertion order: overwrite an existing key in place, else append. -/
def dictInsert (d : List (String × List String)) (k : String) (v : List String) :
    List (String × List String) :=
  if d.any (fun p => p.1 = k) then
    d.map (fun p => if p.1 = k then (k, v) else p)
  else
    d ++ [(k, v)]

/-- `get_viewer_map(session, streamers)`.  Each `add_viewers_task(streamer)`
awaits `get_current_viewers` and on success writes `data[streamer]`;
`asyncio.gather(..., return_exceptions=True)` collects every task's
exception instead of propagating it, so a failed task simply leaves its key
unset.  Tasks write to distinct per-streamer keys with values determined by
the (deterministic) server, so the completed map and request set do not
depend on the interleaving; the tasks are modelled in input order.  Returns
the dict together with the trace of request URLs issued. -/
def viewerStep (server : ChattersServer)
    (acc : List (String × List String) × List String) (streamer : String) :
    List (String × List String) × List String :=
  match (get_current_viewers server streamer).2 with
  | .ok viewers =>
    (dictInsert acc.1 streamer viewers, acc.2 ++ [(get_current_viewers server streamer).1])
  | .error _ => (acc.1, acc.2 ++ [(get_current_viewers server streamer).1])

def get_viewer_map (server : ChattersServer) (streamers : List String) :
    List (String × List String) × List String :=
  streamers.foldl (viewerStep server) ([], [])

/-- Default element used for positional access into request traces. -/
def dummyReq : StreamsRequest := ⟨[], 0, ""⟩

/-- The response to page `i` of a run in which no response is an error and
every lookup succeeds: cursor `cur i` and `user_login` list `items i`. -/
def wfResponse (cur : Nat → String) (items : Nat → List String) (i : Nat) :
    StreamsResponse :=
  ⟨none, some (cur i), some (items i)⟩

/-- The request trace the loop produces on an error-free run, characterised
directly: request `first` is `min count 100`, request `after` is the
incoming cursor, and the next page carries the cursor of this response. -/
def reqList (headers : List (String × String)) (cur : Nat → String)
    (idx : Nat) (c0 : String) (count : Nat) : List StreamsRequest :=
  if h : count = 0 then []
  else
    ⟨headers, min count TWITCH_PAGE_SIZE, c0⟩ ::
      reqList headers cur (idx + 1) (cur idx) (count - min count TWITCH_PAGE_SIZE)
termination_by count
decreasing_by
  simp_wf
  simp only [TWITCH_PAGE_SIZE]
  omega

/-- The accumulated `user_login` lists of an error-free run. -/
def okItems (items : Nat → List String) (idx : Nat) (count : Nat) : List String :=
  if h : count = 0 then []
  else items idx ++ okItems items (idx + 1) (count - min count TWITCH_PAGE_SIZE)
termination_by count
decreasing_by
  simp_wf
  simp only [TWITCH_PAGE_SIZE]
  omega

/-- `r` with its `message` field dropped, other fields untouched. -/
def scrubMessage (r : StreamsResponse) : StreamsResponse :=
  ⟨none, r.cursor, r.data⟩

/-- Concrete inputs used to exercise the theorems below. -/
def wCreds : Credentials := ⟨"client", "token"⟩

def wCur : Nat → String := fun i => "cursor" ++ toString i

def wItemsPair : Nat → List String := fun _ => ["s1", "s2"]

/-- An oracle whose every response is well-formed. -/
def wOracleWf : Nat → StreamsResponse := fun i => wfResponse wCur wItemsPair i

/-- An oracle whose second response is an API error body. -/
def wOracleBad : Nat → StreamsResponse := fun i =>
  if i = 0 then wfResponse wCur wItemsPair i
  else ⟨some "invalid token", some "", some []⟩

/-- An oracle whose every response carries `message` set to the falsy `""`. -/
def wOracleFalsy : Nat → StreamsResponse := fun _ => ⟨some "", some "c", some ["x"]⟩

def w6groups : List (String × List String) :=
  [("viewers", ["a", "b"]), ("moderators", ["c"])]

/-- A chatters server answering every URL with the two-group body. -/
def w6server : ChattersServer := fun _ => .ok ⟨some w6groups⟩

/-- A chatters server where only channel `ch1` resolves; every other
request raises. -/
def w2server : ChattersServer := fun url =>
  if url = "http://tmi.twitch.tv/group/user/ch1/chatters" then
    .ok ⟨some [("viewers", ["v1"])]⟩
  else
    .error (.apiError "connection error")

/-- A chatters server whose every request raises. -/
def w8errServer : ChattersServer := fun _ => .error (.apiError "boom")

/-- A chatters server answering with a body that lacks the `chatters` key. -/
def w8badServer : ChattersServer := fun _ => .ok ⟨none⟩

/-- A chatters server answering every URL with one single-group body. -/
def w10server : ChattersServer := fun _ => .ok ⟨some [("viewers", ["a"])]⟩

theorem streamsLoop_wf (oracle : Nat → StreamsResponse)
    (headers : List (String × String)) (cur : Nat → String)
    (items : Nat → List String)
    (hor : ∀ i, oracle i = wfResponse cur items i) :
    ∀ count idx c0, streamsLoop oracle headers idx c0 count
      = (reqList headers cur idx c0 count, .ok (okItems items idx count)) := by
  intro count
  induction count using Nat.strong_induction_on with
  | _ count ih =>
    intro idx c0
    rw [streamsLoop, reqList, okItems]
    by_cases h : count = 0
    · simp [h]
    · simp only [h, dite_false]
      simp only [hor idx, wfResponse, truthy]
      rw [ih (count - min count TWITCH_PAGE_SIZE) (by simp only [TWITCH_PAGE_SIZE]; omega)]
      simp [Except.map]

theorem batches_sum (count : Nat) : (batches count).sum = count := by
  induction count using Nat.strong_induction_on with
  | _ count ih =>
    rw [batches]
    by_cases h : count = 0
    · simp [h]
    · simp only [h, dite_false, List.sum_cons]
      rw [ih _ (by simp only [TWITCH_PAGE_SIZE]; omega)]
      simp only [TWITCH_PAGE_SIZE]
      omega

theorem batches_length (count : Nat) :
    (batches count).length = (count + TWITCH_PAGE_SIZE - 1) / TWITCH_PAGE_SIZE := by
  induction count using Nat.strong_induction_on with
  | _ count ih =>
    rw [batches]
    by_cases h : count = 0
    · simp [h, TWITCH_PAGE_SIZE]
    · simp only [h, dite_false, List.length_cons]
      rw [ih _ (by simp only [TWITCH_PAGE_SIZE]; omega)]
      simp only [TWITCH_PAGE_SIZE]
      omega

theorem reqList_zero (headers : List (String × String)) (cur : Nat → String)
    (idx : Nat) (c0 : String) : reqList headers cur idx c0 0 = [] := by
  rw [reqList]
  simp

theorem reqList_map_first (headers : List (String × String)) (cur : Nat → String) :
    ∀ count idx c0,
      (reqList headers cur idx c0 count).map StreamsRequest.first = batches count := by
  intro count
  induction count using Nat.strong_induction_on with
  | _ count ih =>
    intro idx c0
    rw [reqList, batches]
    by_cases h : count = 0
    · simp [h]
    · simp only [h, dite_false, List.map_cons, List.cons.injEq]
      exact ⟨trivial, ih _ (by simp only [TWITCH_PAGE_SIZE]; omega) _ _⟩

theorem reqList_length (headers : List (String × String)) (cur : Nat → String)
    (count idx : Nat) (c0 : String) :
    (reqList headers cur idx c0 count).length = (batches count).length := by
  rw [← reqList_map_first headers cur count idx c0, List.length_map]

theorem reqList_after_zero (headers : List (String × String)) (cur : Nat → String)
    (count idx : Nat) (c0 : String) (h : count ≠ 0) :
    ((reqList headers cur idx c0 count).getD 0 dummyReq).after = c0 := by
  rw [reqList]
  simp [h]

theorem reqList_after_succ (headers : List (String × String)) (cur : Nat → String) :
    ∀ count idx c0 n, n + 1 < (reqList headers cur idx c0 count).length →
      ((reqList headers cur idx c0 count).getD (n + 1) dummyReq).after = cur (idx + n) := by
  intro count
  induction count using Nat.strong_induction_on with
  | _ count ih =>
    intro idx c0 n hn
    rw [reqList] at hn ⊢
    by_cases h : count = 0
    · simp [h] at hn
    · simp only [h, dite_false, List.length_cons, List.getD_cons_succ] at hn ⊢
      have hn' : n < (reqList headers cur (idx + 1) (cur idx)
          (count - min count TWITCH_PAGE_SIZE)).length := by omega
      rcases n with _ | n
      · have hc : count - min count TWITCH_PAGE_SIZE ≠ 0 := by
          intro h0
          rw [h0, reqList_zero] at hn'
          simp at hn'
        rw [reqList_after_zero _ _ _ _ _ hc, Nat.add_zero]
      · rw [ih _ (by simp only [TWITCH_PAGE_SIZE]; omega) _ _ n (by omega),
          Nat.add_assoc, Nat.add_comm 1 n]

theorem okItems_length_le (items : Nat → List String) :
    ∀ count idx,
      (∀ j, j < (batches count).length →
        (items (idx + j)).length ≤ (batches count).getD j 0) →
      (okItems items idx count).length ≤ count := by
  intro count
  induction count using Nat.strong_induction_on with
  | _ count ih =>
    intro idx hle
    rw [okItems]
    by_cases h : count = 0
    · simp [h]
    · rw [batches] at hle
      simp only [h, dite_false, List.length_append, List.length_cons] at hle ⊢
      have h0 := hle 0 (by omega)
      simp only [Nat.add_zero, List.getD_cons_zero] at h0
      have hrec := ih (count - min count TWITCH_PAGE_SIZE)
        (by simp only [TWITCH_PAGE_SIZE]; omega) (idx + 1)
        (fun j hj => by
          have hj' := hle (j + 1) (by omega)
          simp only [List.getD_cons_succ] at hj'
          have harg : idx + 1 + j = idx + (j + 1) := by omega
          rw [harg]
          exact hj')
      simp only [TWITCH_PAGE_SIZE] at h0 hrec ⊢
      omega

theorem okItems_length_eq (items : Nat → List String) :
    ∀ count idx,
      (∀ j, j < (batches count).length →
        (items (idx + j)).length = (batches count).getD j 0) →
      (okItems items idx count).length = count := by
  intro count
  induction count using Nat.strong_induction_on with
  | _ count ih =>
    intro idx heq
    rw [okItems]
    by_cases h : count = 0
    · simp [h]
    · rw [batches] at heq
      simp only [h, dite_false, List.length_append, List.length_cons] at heq ⊢
      have h0 := heq 0 (by omega)
      simp only [Nat.add_zero, List.getD_cons_zero] at h0
      have hrec := ih (count - min count TWITCH_PAGE_SIZE)
        (by simp only [TWITCH_PAGE_SIZE]; omega) (idx + 1)
        (fun j hj => by
          have hj' := heq (j + 1) (by omega)
          simp only [List.getD_cons_succ] at hj'
          have harg : idx + 1 + j = idx + (j + 1) := by omega
          rw [harg]
          exact hj')
      simp only [TWITCH_PAGE_SIZE] at h0 hrec ⊢
      omega

theorem batches_pos (count : Nat) (h : count ≠ 0) : (batches count).length ≠ 0 := by
  rw [batches]
  simp [h]

theorem streamsLoop_error (oracle : Nat → StreamsResponse)
    (headers : List (String × String)) (cur : Nat → String)
    (items : Nat → List String) (m : String) (hm : ¬ m = "") :
    ∀ k count idx c0, k < (batches count).length →
      (∀ i, i < k → oracle (idx + i) = wfResponse cur items (idx + i)) →
      (oracle (idx + k)).message = some m →
      (streamsLoop oracle headers idx c0 count).2 = .error (.apiError m) ∧
        (streamsLoop oracle headers idx c0 count).1.length = k + 1 := by
  intro k
  induction k with
  | zero =>
    intro count idx c0 hk hwf hbad
    have hc : ¬ count = 0 := by
      intro h0
      rw [h0, batches] at hk
      simp at hk
    rw [Nat.add_zero] at hbad
    rw [streamsLoop]
    simp [hc, hbad, truthy, hm]
  | succ k ih =>
    intro count idx c0 hk hwf hbad
    have hc : ¬ count = 0 := by
      intro h0
      rw [h0, batches] at hk
      simp at hk
    have h0 := hwf 0 (Nat.succ_pos k)
    rw [Nat.add_zero] at h0
    have hk' : k < (batches (count - min count TWITCH_PAGE_SIZE)).length := by
      rw [batches] at hk
      simp only [hc, dite_false, List.length_cons] at hk
      omega
    have hwf' : ∀ i, i < k →
        oracle (idx + 1 + i) = wfResponse cur items (idx + 1 + i) := by
      intro i hi
      have hh := hwf (i + 1) (by omega)
      have harg : idx + 1 + i = idx + (i + 1) := by omega
      rw [harg]
      exact hh
    have hbad' : (oracle (idx + 1 + k)).message = some m := by
      have harg : idx + 1 + k = idx + (k + 1) := by omega
      rw [harg]
      exact hbad
    have hrec := ih (count - min count TWITCH_PAGE_SIZE) (idx + 1) (cur idx) hk' hwf' hbad'
    rw [streamsLoop]
    simp only [hc, dite_false, h0, wfResponse, truthy]
    simp only [List.length_cons]
    rw [hrec.1, hrec.2]
    simp [Except.map]

theorem streamsLoop_falsy (oracle : Nat → StreamsResponse)
    (headers : List (String × String))
    (hm : ∀ i, (oracle i).message = none ∨ (oracle i).message = some "") :
    ∀ count idx c0,
      streamsLoop oracle headers idx c0 count
        = streamsLoop (fun i => scrubMessage (oracle i)) headers idx c0 count := by
  intro count
  induction count using Nat.strong_induction_on with
  | _ count ih =>
    intro idx c0
    rw [streamsLoop, streamsLoop]
    by_cases h : count = 0
    · simp [h]
    · have htru : truthy (oracle idx).message = none := by
        rcases hm idx with h' | h' <;> simp [truthy, h']
      have htru2 : truthy (scrubMessage (oracle idx)).message = none := by
        simp [scrubMessage, truthy]
      simp only [h, dite_false, htru, htru2, scrubMessage]
      cases hcur : (oracle idx).cursor with
      | none => simp [truthy]
      | some c =>
        cases hdat : (oracle idx).data with
        | none => simp [truthy]
        | some its =>
          have ih' := ih (count - min count TWITCH_PAGE_SIZE)
            (by simp only [TWITCH_PAGE_SIZE]; omega) (idx + 1) c
          simp only [scrubMessage] at ih'
          simp only [truthy]
          rw [ih']

theorem dictInsert_mem_keys (d : List (String × List String)) (k : String)
    (v : List String) (x : String) :
    x ∈ (dictInsert d k v).map Prod.fst ↔ x ∈ d.map Prod.fst ∨ x = k := by
  unfold dictInsert
  by_cases h : d.any (fun p => p.1 = k) = true
  · have hk : k ∈ d.map Prod.fst := by
      rcases List.any_eq_true.mp h with ⟨p, hp, hpk⟩
      simp only [decide_eq_true_eq] at hpk
      exact List.mem_map.mpr ⟨p, hp, hpk⟩
    have hfun : (Prod.fst ∘ fun p : String × List String =>
        if p.1 = k then (k, v) else p) = Prod.fst := by
      funext p
      by_cases hp : p.1 = k
      · simp [hp]
      · simp [hp]
    simp only [h, if_true, List.map_map, hfun]
    constructor
    · exact Or.inl
    · rintro (hx | rfl)
      · exact hx
      · exact hk
  · simp [h]

theorem foldl_viewerStep_keys (server : ChattersServer) :
    ∀ (streamers : List String) (acc : List (String × List String) × List String)
      (x : String),
      x ∈ (streamers.foldl (viewerStep server) acc).1.map Prod.fst ↔
        (x ∈ acc.1.map Prod.fst ∨
          (x ∈ streamers ∧ (get_current_viewers server x).2.isOk = true)) := by
  intro streamers
  induction streamers with
  | nil =>
    intro acc x
    simp
  | cons t rest ih =>
    intro acc x
    rw [List.foldl_cons, ih]
    unfold viewerStep
    split
    case _ vs hf =>
      simp only [dictInsert_mem_keys, List.mem_cons]
      by_cases hx : x = t
      · subst hx
        simp [hf, Except.isOk, Except.toBool]
      · constructor
        · rintro (⟨hk | hxt⟩ | hr)
          · exact Or.inl hk
          · exact absurd hxt hx
          · exact Or.inr ⟨Or.inr hr.1, hr.2⟩
        · rintro (hk | ⟨ht | hr, hok⟩)
          · exact Or.inl (Or.inl hk)
          · exact absurd ht hx
          · exact Or.inr ⟨hr, hok⟩
    case _ e hf =>
      simp only [List.mem_cons]
      constructor
      · rintro (hk | hr)
        · exact Or.inl hk
        · exact Or.inr ⟨Or.inr hr.1, hr.2⟩
      · rintro (hk | ⟨ht | hr, hok⟩)
        · exact Or.inl hk
        · subst ht
          rw [hf] at hok
          simp [Except.isOk, Except.toBool] at hok
        · exact Or.inr ⟨hr, hok⟩

theorem batches_zero : batches 0 = [] := by
  rw [batches]
  rfl

theorem batches_cons (count : Nat) (h : count ≠ 0) :
    batches count
      = min count TWITCH_PAGE_SIZE :: batches (count - min count TWITCH_PAGE_SIZE) := by
  rw [batches]
  simp [h]

theorem okItems_zero (items : Nat → List String) (idx : Nat) :
    okItems items idx 0 = [] := by
  rw [okItems]
  rfl

theorem okItems_cons (items : Nat → List String) (idx count : Nat) (h : count ≠ 0) :
    okItems items idx count
      = items idx ++ okItems items (idx + 1) (count - min count TWITCH_PAGE_SIZE) := by
  rw [okItems]
  simp [h]

theorem streamsLoop_no_apiError (oracle : Nat → StreamsResponse)
    (headers : List (String × String))
    (hm : ∀ i, truthy (oracle i).message = none) :
    ∀ count idx c0 m,
      (streamsLoop oracle headers idx c0 count).2 ≠ .error (.apiError m) := by
  intro count
  induction count using Nat.strong_induction_on with
  | _ count ih =>
    intro idx c0 m
    rw [streamsLoop]
    by_cases h : count = 0
    · simp [h]
    · simp only [h, dite_false, hm idx]
      cases hcur : (oracle idx).cursor with
      | none => simp
      | some c =>
        cases hdat : (oracle idx).data with
        | none => simp
        | some its =>
          intro hcontra
          simp only at hcontra
          cases hrest : (streamsLoop oracle headers (idx + 1) c
              (count - min count TWITCH_PAGE_SIZE)).2 with
          | ok l =>
            rw [hrest] at hcontra
            simp [Except.map] at hcontra
          | error e =>
            rw [hrest] at hcontra
            simp only [Except.map] at hcontra
            exact ih (count - min count TWITCH_PAGE_SIZE)
              (by simp only [TWITCH_PAGE_SIZE]; omega) (idx + 1) c m
              (by rw [hrest, hcontra])

/-- C1: for every non-negative `count`, if every streams response is
well-formed (no `message` field, `pagination.cursor` and `data` present)
and page `j` carries at most the requested batch size `(batches count).getD j 0`
items, then `get_top_streamers` returns a list of streamer identifiers of
length at most `count`; and when every page carries exactly the requested
batch size, the returned length equals `count`. -/
theorem get_top_streamers_length_le_count (oracle : Nat → StreamsResponse)
    (credentials : Credentials) (cur : Nat → String) (items : Nat → List String)
    (count : Nat) (hor : ∀ i, oracle i = wfResponse cur items i)
    (hle : ∀ j, j < (batches count).length →
      (items j).length ≤ (batches count).getD j 0) :
    ∃ l, (get_top_streamers oracle credentials count).2 = .ok l
      ∧ l.length ≤ count
      ∧ ((∀ j, j < (batches count).length →
            (items j).length = (batches count).getD j 0) →
          l.length = count) := by
  unfold get_top_streamers
  rw [streamsLoop_wf oracle (headersOf credentials) cur items hor count 0 ""]
  refine ⟨okItems items 0 count, rfl, ?_, ?_⟩
  · exact okItems_length_le items count 0
      (fun j hj => by rw [Nat.zero_add]; exact hle j hj)
  · intro heq
    exact okItems_length_eq items count 0
      (fun j hj => by rw [Nat.zero_add]; exact heq j hj)

/-- Witness for C1 at `count = 2`, where the one response carries exactly
the two requested items. -/
theorem get_top_streamers_length_le_count_witness :
    ∃ l, (get_top_streamers wOracleWf wCreds 2).2 = .ok l
      ∧ l.length ≤ 2
      ∧ ((∀ j, j < (batches 2).length →
            (wItemsPair j).length = (batches 2).getD j 0) →
          l.length = 2) :=
  get_top_streamers_length_le_count wOracleWf wCreds wCur wItemsPair 2
    (fun _ => rfl)
    (by
      have hb : batches 2 = [2] := by
        norm_num [batches_cons, batches_zero, TWITCH_PAGE_SIZE]
      rw [hb]
      decide)

/-- C3: if the `k`-th streams response carries a truthy `message` field
(after `k` well-formed pages) while more pages were still due, the fetch
raises an exception carrying that message: the result is that error, not a
partial list, and the request trace stops at `k + 1` requests. -/
theorem get_top_streamers_error_message_aborts (oracle : Nat → StreamsResponse)
    (credentials : Credentials) (cur : Nat → String) (items : Nat → List String)
    (count k : Nat) (m : String) (hm : ¬ m = "")
    (hk : k < (batches count).length)
    (hwf : ∀ i, i < k → oracle i = wfResponse cur items i)
    (hbad : (oracle k).message = some m) :
    (get_top_streamers oracle credentials count).2 = .error (.apiError m)
    ∧ (get_top_streamers oracle credentials count).1.length = k + 1 := by
  unfold get_top_streamers
  exact streamsLoop_error oracle (headersOf credentials) cur items m hm k count 0 "" hk
    (fun i hi => by rw [Nat.zero_add]; exact hwf i hi)
    (by rw [Nat.zero_add]; exact hbad)

/-- Witness for C3: `count = 250` and the second response is
`{"message": "invalid token"}`: the call fails with that message after
exactly 2 of the 3 due requests. -/
theorem get_top_streamers_error_message_aborts_witness :
    (get_top_streamers wOracleBad wCreds 250).2 = .error (.apiError "invalid token")
    ∧ (get_top_streamers wOracleBad wCreds 250).1.length = 1 + 1 :=
  get_top_streamers_error_message_aborts wOracleBad wCreds wCur wItemsPair 250 1
    "invalid token" (by decide)
    (by
      have hb : batches 250 = [100, 100, 50] := by
        norm_num [batches_cons, batches_zero, TWITCH_PAGE_SIZE]
      rw [hb]
      decide)
    (by decide)
    rfl

/-- C4: on well-formed responses the loop issues exactly
`ceil(count / 100)` requests whose `first` parameters are
`min (remaining, 100)` — independent of the response contents, because the
remaining count is decremented by the batch size requested — and for
`count = 250` the batch sizes are 100, 100, 50 in that order. -/
theorem get_top_streamers_request_schedule (oracle : Nat → StreamsResponse)
    (credentials : Credentials) (cur : Nat → String) (items : Nat → List String)
    (count : Nat) (hor : ∀ i, oracle i = wfResponse cur items i) :
    (get_top_streamers oracle credentials count).1.map StreamsRequest.first
      = batches count
    ∧ (get_top_streamers oracle credentials count).1.length
        = (count + TWITCH_PAGE_SIZE - 1) / TWITCH_PAGE_SIZE
    ∧ batches 250 = [100, 100, 50] := by
  unfold get_top_streamers
  rw [streamsLoop_wf oracle (headersOf credentials) cur items hor count 0 ""]
  refine ⟨reqList_map_first _ _ _ _ _, ?_, ?_⟩
  · rw [reqList_length, batches_length]
  · norm_num [batches_cons, batches_zero, TWITCH_PAGE_SIZE]

/-- Witness for C4 at `count = 250`. -/
theorem get_top_streamers_request_schedule_witness :
    (get_top_streamers wOracleWf wCreds 250).1.map StreamsRequest.first
      = batches 250
    ∧ (get_top_streamers wOracleWf wCreds 250).1.length
        = (250 + TWITCH_PAGE_SIZE - 1) / TWITCH_PAGE_SIZE
    ∧ batches 250 = [100, 100, 50] :=
  get_top_streamers_request_schedule wOracleWf wCreds wCur wItemsPair 250
    (fun _ => rfl)

/-- C5: cursors are threaded strictly sequentially: the first request's
`after` parameter is the empty string, and whenever an `(n+1)`-th request
exists its `after` parameter is exactly the `pagination.cursor` value of
the `n`-th response. -/
theorem get_top_streamers_cursor_threading (oracle : Nat → StreamsResponse)
    (credentials : Credentials) (cur : Nat → String) (items : Nat → List String)
    (count n : Nat) (c : String)
    (hor : ∀ i, oracle i = wfResponse cur items i)
    (hn : n + 1 < (get_top_streamers oracle credentials count).1.length)
    (hc : (oracle n).cursor = some c) :
    ((get_top_streamers oracle credentials count).1.getD 0 dummyReq).after = ""
    ∧ ((get_top_streamers oracle credentials count).1.getD (n + 1) dummyReq).after
        = c := by
  have hwfeq := streamsLoop_wf oracle (headersOf credentials) cur items hor count 0 ""
  unfold get_top_streamers at hn ⊢
  rw [hwfeq] at hn ⊢
  have hcount : count ≠ 0 := by
    intro h0
    rw [h0, reqList_zero] at hn
    simp at hn
  have hcn : cur n = c := by
    have h2 := hor n
    rw [h2] at hc
    simpa [wfResponse] using hc
  constructor
  · exact reqList_after_zero _ _ _ _ _ hcount
  · have hs := reqList_after_succ (headersOf credentials) cur count 0 "" n hn
    rw [Nat.zero_add] at hs
    rw [hs, hcn]

/-- Witness for C5 at `count = 250`, `n = 1`: the third request's cursor
is the second response's `pagination.cursor`. -/
theorem get_top_streamers_cursor_threading_witness :
    ((get_top_streamers wOracleWf wCreds 250).1.getD 0 dummyReq).after = ""
    ∧ ((get_top_streamers wOracleWf wCreds 250).1.getD (1 + 1) dummyReq).after
        = wCur 1 :=
  get_top_streamers_cursor_threading wOracleWf wCreds wCur wItemsPair 250 1
    (wCur 1) (fun _ => rfl)
    (by
      have hlen : (get_top_streamers wOracleWf wCreds 250).1.length = 3 := by
        unfold get_top_streamers
        rw [streamsLoop_wf wOracleWf (headersOf wCreds) wCur wItemsPair
          (fun _ => rfl) 250 0 ""]
        rw [reqList_length, batches_length]
        norm_num [TWITCH_PAGE_SIZE]
      rw [hlen]
      decide)
    rfl

/-- Counterexample to C3 as stated: every response of this run carries a
`message` field (with the falsy value `""`), yet `get_top_streamers`
raises no exception and returns the fetched streamer list. -/
theorem get_top_streamers_message_field_not_sufficient :
    (wOracleFalsy 0).message = some ""
    ∧ (get_top_streamers wOracleFalsy wCreds 1).2 = .ok ["x"] := by
  constructor
  · rfl
  · have h1 := streamsLoop_falsy wOracleFalsy (headersOf wCreds)
      (fun _ => Or.inr rfl) 1 0 ""
    have h2 := streamsLoop_wf (fun i => scrubMessage (wOracleFalsy i))
      (headersOf wCreds) (fun _ => "c") (fun _ => ["x"]) (fun _ => rfl) 1 0 ""
    unfold get_top_streamers
    rw [h1, h2]
    norm_num [okItems_cons, okItems_zero, TWITCH_PAGE_SIZE]

/-- C9: a streams response whose `message` field holds the falsy `""` is
not treated as an error: the whole call behaves exactly as if the field
were absent (cursor and data items are read as usual) and no
`Exception(msg)` is ever raised. -/
theorem get_top_streamers_falsy_message_ok (oracle : Nat → StreamsResponse)
    (credentials : Credentials) (count : Nat)
    (hm : ∀ i, (oracle i).message = none ∨ (oracle i).message = some "") :
    get_top_streamers oracle credentials count
      = get_top_streamers (fun i => scrubMessage (oracle i)) credentials count
    ∧ ∀ m, (get_top_streamers oracle credentials count).2
        ≠ .error (.apiError m) := by
  constructor
  · exact streamsLoop_falsy oracle (headersOf credentials) hm count 0 ""
  · intro m
    unfold get_top_streamers
    exact streamsLoop_no_apiError oracle (headersOf credentials)
      (fun i => by rcases hm i with h | h <;> simp [truthy, h]) count 0 "" m

/-- Witness for C9: every response has `message = ""` and the fetch of 5
streamers proceeds as if the field were absent. -/
theorem get_top_streamers_falsy_message_ok_witness :
    get_top_streamers wOracleFalsy wCreds 5
      = get_top_streamers (fun i => scrubMessage (wOracleFalsy i)) wCreds 5
    ∧ ∀ m, (get_top_streamers wOracleFalsy wCreds 5).2
        ≠ .error (.apiError m) :=
  get_top_streamers_falsy_message_ok wOracleFalsy wCreds 5 (fun _ => Or.inr rfl)

/-- C6: `get_current_viewers` returns the flattened list of all viewer
identifiers across every role group of the `chatters` object: every group
appears in order inside the result (as a sublist) and every returned viewer
comes from some group; roles themselves are not distinguished. -/
theorem get_current_viewers_flattens_all_groups (server : ChattersServer)
    (channel : String) (groups : List (String × List String))
    (hresp : server ("http://tmi.twitch.tv/group/user/"
        ++ pyLower channel ++ "/chatters") = .ok ⟨some groups⟩) :
    (get_current_viewers server channel).2 = .ok ((groups.map Prod.snd).flatten)
    ∧ (∀ g, g ∈ groups → g.2.Sublist ((groups.map Prod.snd).flatten))
    ∧ (∀ v, v ∈ (groups.map Prod.snd).flatten → ∃ g, g ∈ groups ∧ v ∈ g.2) := by
  refine ⟨?_, ?_, ?_⟩
  · simp only [get_current_viewers]
    rw [hresp]
  · intro g hg
    exact List.sublist_flatten_of_mem (List.mem_map_of_mem Prod.snd hg)
  · intro v hv
    rcases List.mem_flatten.mp hv with ⟨l, hl, hvl⟩
    rcases List.mem_map.mp hl with ⟨g, hg, rfl⟩
    exact ⟨g, hg, hvl⟩

/-- Witness for C6: the body
`{"chatters": {"viewers": ["a","b"], "moderators": ["c"]}}` yields exactly
`["a", "b", "c"]`. -/
theorem get_current_viewers_flattens_all_groups_witness :
    (get_current_viewers w6server "streamer").2 = .ok ["a", "b", "c"]
    ∧ (∀ g, g ∈ w6groups → g.2.Sublist ["a", "b", "c"])
    ∧ (∀ v, v ∈ (["a", "b", "c"] : List String) → ∃ g, g ∈ w6groups ∧ v ∈ g.2) :=
  get_current_viewers_flattens_all_groups w6server "streamer" w6groups rfl

/-- C7: the request URL of `get_current_viewers` embeds the lowercased
channel name; in particular for `"ChannelX"` the path contains `channelx`. -/
theorem get_current_viewers_lowercases_channel (server : ChattersServer)
    (channel : String) :
    (get_current_viewers server channel).1
      = "http://tmi.twitch.tv/group/user/" ++ pyLower channel ++ "/chatters"
    ∧ (get_current_viewers server "ChannelX").1
      = "http://tmi.twitch.tv/group/user/channelx/chatters" := by
  constructor
  · rfl
  · rfl

/-- C8: `get_current_viewers` consults no error schema: an exception from
the request or the JSON decode propagates unmodified, and a body without
the `chatters` key raises the `KeyError` of that lookup — in neither case
is a `message` field consulted or a retry attempted. -/
theorem get_current_viewers_propagates_exceptions (server : ChattersServer)
    (channel : String) :
    (∀ e, server ((get_current_viewers server channel).1) = .error e →
        (get_current_viewers server channel).2 = .error e)
    ∧ (∀ body, server ((get_current_viewers server channel).1) = .ok body →
        body.chatters = none →
        (get_current_viewers server channel).2 = .error (.keyError "chatters")) := by
  constructor
  · intro e he
    simp only [get_current_viewers] at he ⊢
    rw [he]
  · intro body hb hc
    simp only [get_current_viewers] at hb ⊢
    rw [hb]
    simp [hc]

/-- Witness for C8: a raising server propagates its exception unmodified,
and a body lacking `chatters` yields the `KeyError`. -/
theorem get_current_viewers_propagates_exceptions_witness :
    (get_current_viewers w8errServer "chan").2 = .error (.apiError "boom")
    ∧ (get_current_viewers w8badServer "chan").2 = .error (.keyError "chatters") :=
  ⟨(get_current_viewers_propagates_exceptions w8errServer "chan").1
      (.apiError "boom") rfl,
   (get_current_viewers_propagates_exceptions w8badServer "chan").2
      ⟨none⟩ rfl rfl⟩

/-- C2: `get_viewer_map` catches a failed per-channel fetch at the
per-channel boundary: a channel whose fetch raises is absent from the
returned map (no exception propagates — the call still returns a map),
while every member channel whose fetch succeeds has its entry. -/
theorem get_viewer_map_isolates_failures (server : ChattersServer)
    (streamers : List String) (s : String) :
    ((get_current_viewers server s).2.isOk = false →
        s ∉ (get_viewer_map server streamers).1.map Prod.fst)
    ∧ (s ∈ streamers → (get_current_viewers server s).2.isOk = true →
        s ∈ (get_viewer_map server streamers).1.map Prod.fst) := by
  unfold get_viewer_map
  constructor
  · intro herr hmem
    rw [foldl_viewerStep_keys] at hmem
    rcases hmem with h | h
    · simp at h
    · rw [h.2] at herr
      simp at herr
  · intro hs hok
    rw [foldl_viewerStep_keys]
    exact Or.inr ⟨hs, hok⟩

/-- Witness for C2: for input `["ch1", "ch2"]` where `ch2`'s fetch raises,
the map contains `ch1`'s entry and not `ch2`'s. -/
theorem get_viewer_map_isolates_failures_witness :
    ("ch2" ∉ (get_viewer_map w2server ["ch1", "ch2"]).1.map Prod.fst)
    ∧ ("ch1" ∈ (get_viewer_map w2server ["ch1", "ch2"]).1.map Prod.fst) :=
  ⟨(get_viewer_map_isolates_failures w2server ["ch1", "ch2"] "ch2").1 (by decide),
   (get_viewer_map_isolates_failures w2server ["ch1", "ch2"] "ch1").2
      (by decide) (by decide)⟩

/-- C10: every key of the map returned by `get_viewer_map` is an element of
the input list stored verbatim (the original string, not the lowercased
form used in the URL), and the empty input yields the empty map with no
request issued. -/
theorem get_viewer_map_keys_from_input (server : ChattersServer)
    (streamers : List String) :
    (∀ k, k ∈ (get_viewer_map server streamers).1.map Prod.fst → k ∈ streamers)
    ∧ get_viewer_map server [] = ([], []) := by
  constructor
  · intro k hk
    unfold get_viewer_map at hk
    rw [foldl_viewerStep_keys] at hk
    rcases hk with h | h
    · simp at h
    · exact h.1
  · rfl

/-- Witness for C10: the mixed-case input `"Ch1"` (whose request URL uses
`ch1`) appears verbatim as the key, hence is a member of the input list;
and the empty input produces the empty map and an empty request trace. -/
theorem get_viewer_map_keys_from_input_witness :
    ("Ch1" ∈ (["Ch1"] : List String))
    ∧ get_viewer_map w10server [] = ([], []) :=
  ⟨(get_viewer_map_keys_from_input w10server ["Ch1"]).1 "Ch1" (by decide),
   (get_viewer_map_keys_from_input w10server []).2⟩

end Twitch
